import Mathlib

/-!
Verification development for the `ssp_api` repository: a shallow embedding
of the Terraform-generation pipeline (resource lookup, template store,
Jinja renderer, artifact validator, credential lookup, publication client,
status ledger, and the orchestrating request handler) together with
theorems settling the specified properties.

The backing relational store (`oracledb`), the hosting service
(`python-gitlab`) and the Jinja template engine are external libraries;
they are modelled as explicit oracles / small-step semantic models, while
every function of the repository itself is translated line by line from
the source under `src/`.
-/

deriving instance DecidableEq for Except

namespace SspApi

/-! ## Python value model

Values flowing through the service are the scalars the relational store
can produce (`NULL`, strings, integers, booleans), flat lists of scalars,
and lists of records (the `sg_rules` rows).  This matches every value the
repository's own code constructs or consumes. -/

/-- A scalar Python value as produced by the store / used by templates. -/
inductive PyLeaf where
  | none
  | str (s : String)
  | int (n : Int)
  | bool (b : Bool)
deriving DecidableEq, Repr

/-- A Python value: a scalar, a flat list of scalars, a single record
(an association list of column name to scalar), or a list of records
(the shape of the `sg_rules` result). -/
inductive PyValue where
  | leaf (l : PyLeaf)
  | list (xs : List PyLeaf)
  | row (r : List (String × PyLeaf))
  | rows (rs : List (List (String × PyLeaf)))
deriving DecidableEq, Repr

/-- Python `str()` of a scalar. -/
def pyLeafStr : PyLeaf → String
  | .none => "None"
  | .str s => s
  | .int n => toString n
  | .bool b => cond b "True" "False"

/-- Python `repr()` of a scalar (as used when a container is stringified). -/
def pyLeafRepr : PyLeaf → String
  | .none => "None"
  | .str s => "'" ++ s ++ "'"
  | .int n => toString n
  | .bool b => cond b "True" "False"

/-- Python `str()` of a record (a dict of column name to scalar). -/
def pyRowStr (r : List (String × PyLeaf)) : String :=
  "\x7b" ++ String.intercalate ", " (r.map (fun p => "'" ++ p.1 ++ "': " ++ pyLeafRepr p.2)) ++ "\x7d"

/-- Python `str()` of a value. -/
def pyStr : PyValue → String
  | .leaf l => pyLeafStr l
  | .list xs => "[" ++ String.intercalate ", " (xs.map pyLeafRepr) ++ "]"
  | .row r => pyRowStr r
  | .rows rs => "[" ++ String.intercalate ", " (rs.map pyRowStr) ++ "]"

/-- Python truthiness of a scalar. -/
def pyLeafTruthy : PyLeaf → Bool
  | .none => false
  | .str s => s ≠ ""
  | .int n => n ≠ 0
  | .bool b => b

/-- Python truthiness of a value. -/
def pyTruthy : PyValue → Bool
  | .leaf l => pyLeafTruthy l
  | .list xs => ¬ xs.isEmpty
  | .row r => ¬ r.isEmpty
  | .rows rs => ¬ rs.isEmpty

/-- A row / dict: association list from column name to value.  Lookup
takes the first matching key, as a Python dict has unique keys. -/
abbrev Row := List (String × PyValue)

/-- Python `dict.get(k)`: `some v` when the key is present, `none` otherwise. -/
def dictGet (row : Row) (k : String) : Option PyValue :=
  (List.lookup k row)

/-- Python `d[k] = v`: overwrite in place when present, append otherwise. -/
def dictSet (row : Row) (k : String) (v : PyValue) : Row :=
  if (List.lookup k row).isSome then
    List.map (fun p => if p.1 = k then (k, v) else p) row
  else
    row ++ [(k, v)]

/-! ## Jinja renderer (`src/app/services/jinja_service.py`)

The Jinja engine itself is external; it is modelled by the standard
semantics of its documented behaviour: a template source either fails to
parse (invalid syntax) or parses to a sequence of segments, each a text
literal or a variable reference.  Rendering substitutes each variable via
Python `str()`; an undefined variable renders as empty text under the
default (lenient) undefined policy and raises an undefined-variable error
under `StrictUndefined`.  `JinjaService.__init__` passes no `undefined=`
argument, so its environment uses the lenient default. -/

/-- A parsed template segment: literal text, or a `\x7b\x7b name \x7d\x7d` variable hole. -/
inductive Seg where
  | lit (s : String)
  | var (name : String)
deriving DecidableEq, Repr

/-- A Jinja template source: either syntactically invalid (parsing raises
with the given message) or parsed into segments.  A nonempty source text
parses into a nonempty segment list; the empty source parses to `[]`. -/
inductive TmplSrc where
  | invalid (msg : String)
  | parsed (segs : List Seg)
deriving DecidableEq, Repr

/-- Python truthiness of a template source string: only the empty text
(which parses to no segments) is falsy. -/
def srcTruthy : TmplSrc → Bool
  | .invalid _ => true
  | .parsed segs => ¬ segs.isEmpty

/-- The undefined-variable policy of a Jinja environment. -/
inductive UndefPolicy where
  | lenient
  | strict
deriving DecidableEq, Repr

/-- Render a parsed segment list against a data mapping: literals pass
through; a defined variable prints via `str()`; an undefined variable is
empty text (lenient) or an undefined-variable error (strict). -/
def renderSegs (policy : UndefPolicy) (data : Row) : List Seg → Except String String
  | [] => .ok ""
  | .lit s :: rest => (renderSegs policy data rest).map (fun t => s ++ t)
  | .var n :: rest =>
    match dictGet data n with
    | some v => (renderSegs policy data rest).map (fun t => pyStr v ++ t)
    | Option.none =>
      match policy with
      | .lenient => (renderSegs policy data rest).map (fun t => "" ++ t)
      | .strict => .error ("'" ++ n ++ "' is undefined")

/-- `jinja2.Environment.from_string` followed by `Template.render`:
parse, then substitute under the given policy. -/
def jinjaRender (policy : UndefPolicy) (tmpl : TmplSrc) (data : Row) : Except String String :=
  match tmpl with
  | .invalid msg => .error msg
  | .parsed segs => renderSegs policy data segs

/-- `JinjaService.render_terraform_code`: render with the service's
environment (lenient undefined policy — `__init__` sets none); any
exception is caught and re-raised as a `ValueError` with a prefixed
message. -/
def render_terraform_code (tmpl : TmplSrc) (data : Row) : Except String String :=
  match jinjaRender .lenient tmpl data with
  | .ok code => .ok code
  | .error e => .error ("Erreur lors de la génération du code Terraform: " ++ e)

/-! ### Python string primitives

Kernel-computable counterparts of the Python string operations the
helpers use (`split`, `strip`, `startswith`, `endswith`, `in`), defined
by structural recursion over the character list of a string. -/

/-- The characters Python `str.strip()` removes. -/
def pyIsSpace (c : Char) : Bool :=
  c = ' ' ∨ c = '\t' ∨ c = '\n' ∨ c = '\x0b' ∨ c = '\x0c' ∨ c = '\r'

/-- Python `s.strip()`. -/
def pyStrip (s : String) : String :=
  ⟨((s.toList.dropWhile pyIsSpace).reverse.dropWhile pyIsSpace).reverse⟩

/-- Split a character list on a separator character; the empty list
yields one empty group, as Python `''.split(sep)` yields `['']`. -/
def splitCharList (sep : Char) : List Char → List (List Char)
  | [] => [[]]
  | c :: cs =>
    if c = sep then [] :: splitCharList sep cs
    else
      match splitCharList sep cs with
      | [] => [[c]]
      | g :: gs => (c :: g) :: gs

/-- Python `s.split(sep)` for a one-character separator. -/
def pySplit (s : String) (sep : Char) : List String :=
  (splitCharList sep s.toList).map (fun cs => ⟨cs⟩)

/-- Python `s.startswith(c)` for a one-character needle. -/
def strStartsWith (s : String) (c : Char) : Bool :=
  match s.toList with
  | [] => false
  | h :: _ => h = c

/-- Python `s.endswith(c)` for a one-character needle. -/
def strEndsWith (s : String) (c : Char) : Bool :=
  match s.toList.getLast? with
  | some h => h = c
  | Option.none => false

/-- Python `c in s` for a single character. -/
def strContainsChar (s : String) (c : Char) : Bool :=
  s.toList.contains c

/-- Does `needle` occur as a contiguous run inside `hay`? -/
def listHasSub (needle : List Char) : List Char → Bool
  | [] => needle.isEmpty
  | c :: cs => needle.isPrefixOf (c :: cs) || listHasSub needle cs

/-- Python `needle in hay` on strings (substring containment). -/
def strContainsSub (hay needle : String) : Bool :=
  listHasSub needle.toList hay.toList

/-- `JinjaService._to_terraform_string`: `None` becomes the literal
`null`; any other value is `str()`-formatted between double quotes. -/
def to_terraform_string (value : PyValue) : String :=
  if value = .leaf .none then "null"
  else "\"" ++ pyStr value ++ "\""

/-- The item list the `_to_terraform_list` helper extracts from its input
(bracketed string → split on commas and trimmed; native list → its items;
any other scalar → a one-item list).  Only called on truthy input. -/
def terraformListItems (value : PyValue) : List PyValue :=
  match value with
  | .leaf (.str s) =>
    if strStartsWith s '[' ∧ strEndsWith s ']' then
      (pySplit ⟨s.toList.drop 1 |>.dropLast⟩ ',').map
        (fun item => .leaf (.str (pyStrip item)))
    else [value]
  | .list xs => xs.map .leaf
  | .rows rs => rs.map .row
  | v => [v]

/-- `JinjaService._to_terraform_list`: falsy input yields `[]`; otherwise
the extracted items are filtered for truthiness (`if item`), quoted via
`str()`, and joined with `", "` between brackets. -/
def to_terraform_list (value : PyValue) : String :=
  if ¬ pyTruthy value then "[]"
  else
    "[" ++ String.intercalate ", "
      ((terraformListItems value).filter pyTruthy |>.map (fun item => "\"" ++ pyStr item ++ "\""))
      ++ "]"

/-! ## Artifact validator (`GitLabService.validate_terraform_files`) -/

/-- Result of `validate_terraform_files`. -/
structure TfValidation where
  is_valid : Bool
  errors : List String
deriving DecidableEq, Repr

/-- `GitLabService.validate_terraform_files` (the `token` argument is
unused by the implementation): check that the text contains both braces,
and that it contains at least one required section keyword; each failing
check appends one message. -/
def validate_terraform_files (terraform_content : String) : TfValidation :=
  let step1 :=
    if ¬ (strContainsChar terraform_content '\x7b' ∧ strContainsChar terraform_content '\x7d') then
      (false, ["Le fichier ne semble pas contenir de blocs de configuration Terraform valides"])
    else (true, [])
  let required_sections := ["resource", "module", "provider", "variable", "output"]
  let step2 :=
    if ¬ required_sections.any (fun sect => strContainsSub terraform_content sect) then
      (false, step1.2 ++ ["Le fichier ne contient aucune section Terraform requise (resource, module, etc.)"])
    else (step1.1, step1.2)
  { is_valid := step1.1 && step2.1, errors := step2.2 }

/-! ## Store oracle and `OracleDBService` (`src/app/services/db_service.py`)

The relational store is an oracle: for each query shape it returns either
a fault (`oracledb` exception, including pool-acquire failures) or the
query's result.  Each service method is translated from the source; a
method additionally reports the list of queries it handed to the store,
so that "no query was executed" is a provable statement. -/

/-- One query executed against the store, identified by its interpolated
view / table and bind parameters. -/
inductive Query where
  | mainQ (view : String) (request_id : Int)
  | sgQ (view : String) (request_id : Int)
  | tmplQ (cloud_id resource_type : String) (module_version : PyValue)
  | tokenQ (username : String)
  | projQ (view : String) (request_id : Int)
deriving DecidableEq, Repr

/-- The backing store's behaviour, one field per query shape.  An
`Except.error` models an `oracledb` exception raised while running the
query (or acquiring the connection for it). -/
structure Store where
  main : String → Int → Except String (Option Row)
  sg : String → Int → Except String (List (List (String × PyLeaf)))
  tmpl : String → String → PyValue → Except String (Option TmplSrc)
  token : String → Except String (Option String)
  projectId : String → Int → Except String (Option Int)

/-- The allow-list guarding `get_resource_data`. -/
def allowed_clouds : List String := ["aws", "gcp", "azure"]

/-- `OracleDBService._get_sg_rules`: query the per-(cloud,resource_type)
`sg_ingress` view; any exception yields the empty list. -/
def get_sg_rules (st : Store) (cloud_id resource_type : String) (request_id : Int) :
    List (List (String × PyLeaf)) × List Query :=
  let view_name := "v_" ++ cloud_id ++ "_" ++ resource_type ++ "_requests_sg_ingress"
  match st.sg view_name request_id with
  | .ok rs => (rs, [.sgQ view_name request_id])
  | .error _ => ([], [.sgQ view_name request_id])

/-- `OracleDBService.get_resource_data`: reject any `cloud_id` outside
the allow-list without querying; otherwise query the dynamically named
view, return `\x7b\x7d` when no row matches, attach `sg_rules` on success, and
catch any exception by returning `\x7b\x7d`. -/
def get_resource_data (st : Store) (cloud_id resource_type : String) (request_id : Int) :
    Row × List Query :=
  if cloud_id ∉ allowed_clouds then ([], [])
  else
    let view_name := "v_" ++ cloud_id ++ "_" ++ resource_type ++ "_requests"
    match st.main view_name request_id with
    | .error _ => ([], [.mainQ view_name request_id])
    | .ok Option.none => ([], [.mainQ view_name request_id])
    | .ok (some data) =>
      let (rules, qs) := get_sg_rules st cloud_id resource_type request_id
      (dictSet data "sg_rules" (.rows rules), .mainQ view_name request_id :: qs)

/-- `OracleDBService.get_jinja_template`: query the template table; no
matching row, a NULL template, or any exception yields `None`.  (The
source memoizes this method in a 600-second TTL cache; the cache affects
only repeated calls and is not modelled here.) -/
def get_jinja_template (st : Store) (cloud_id resource_type : String)
    (module_version : PyValue) : Option TmplSrc :=
  match st.tmpl cloud_id resource_type module_version with
  | .ok r => r
  | .error _ => Option.none

/-- `OracleDBService.get_user_gitlab_token`: no matching row or any
exception yields `None`. -/
def get_user_gitlab_token (st : Store) (username : String) : Option String :=
  match st.token username with
  | .ok r => r
  | .error _ => Option.none

/-- `OracleDBService.get_gitlab_project_id`: interpolates `cloud_id` and
`resource_type` into the view name unconditionally (no allow-list) and
executes the query; no matching row or any exception yields `None`. -/
def get_gitlab_project_id (st : Store) (cloud_id resource_type : String) (request_id : Int) :
    Option Int × List Query :=
  let view_name := "v_" ++ cloud_id ++ "_" ++ resource_type ++ "_requests"
  match st.projectId view_name request_id with
  | .ok r => (r, [.projQ view_name request_id])
  | .error _ => (Option.none, [.projQ view_name request_id])

/-- Modelled from the spec (for comparison only, §4.1): the contract under
which a fault raised during the primary row query, before the row is
obtained, propagates to the caller, while a fault during the secondary
`sg_rules` query degrades to an empty list.  The code's `get_resource_data`
above is compared against this contract. -/
def get_resource_data_spec (st : Store) (cloud_id resource_type : String) (request_id : Int) :
    Except String Row :=
  if cloud_id ∉ allowed_clouds then .ok []
  else
    let view_name := "v_" ++ cloud_id ++ "_" ++ resource_type ++ "_requests"
    match st.main view_name request_id with
    | .error e => .error e
    | .ok Option.none => .ok []
    | .ok (some data) =>
      let (rules, _) := get_sg_rules st cloud_id resource_type request_id
      .ok (dictSet data "sg_rules" (.rows rules))

/-! ## Status ledger (`OracleDBService.save_generation_status`)

The `terraform_requests_status` table is a list of rows; `SYSTIMESTAMP`
is an explicit `now` parameter; the `try/except` swallowing store faults
is an explicit `storeOk` flag (on a fault the statement has no effect and
the method returns silently). -/

/-- One row of `terraform_requests_status`. -/
structure StatusRow where
  apex_request_id : Int
  username : String
  cloud_id : String
  resource_type : String
  status : String
  message : String
  started_at : Nat
  finished_at : Option Nat
  merge_request_url : Option String
deriving DecidableEq, Repr

/-- `OracleDBService.save_generation_status`: a `MERGE` keyed on
`apex_request_id` — update `status`, `message`, `finished_at`,
`merge_request_url` when a row with that key exists, otherwise insert a
fresh row with `started_at` set; store faults are swallowed, leaving the
table unchanged. -/
def save_generation_status (table : List StatusRow) (now : Nat) (storeOk : Bool)
    (apex_request_id : Int) (username cloud_id resource_type status message : String)
    (merge_request_url : Option String := Option.none) : List StatusRow :=
  if ¬ storeOk then table
  else if table.any (fun r => r.apex_request_id = apex_request_id) then
    table.map (fun r =>
      if r.apex_request_id = apex_request_id then
        { r with status := status, message := message, finished_at := some now,
                 merge_request_url := merge_request_url }
      else r)
  else
    table ++ [{ apex_request_id := apex_request_id, username := username,
                cloud_id := cloud_id, resource_type := resource_type,
                status := status, message := message, started_at := now,
                finished_at := Option.none, merge_request_url := merge_request_url }]

/-! ## Publication client (`GitLabService.create_merge_request`)

The remote hosting service is an oracle; each step either succeeds or
raises.  `python-gitlab` raises `GitlabGetError` on a failed lookup and
other exception classes on other faults; the implementation's inner
`try/except` catches only `GitlabGetError`.  The client also reports the
ordered list of remote actions it performed, so that ordering and
absence-of-rollback are provable statements. -/

/-- A remote-service exception: a `GitlabGetError` or any other fault. -/
inductive GLErr where
  | getError (msg : String)
  | fault (msg : String)
deriving DecidableEq, Repr

/-- Python `str(e)` of a remote exception. -/
def glErrMsg : GLErr → String
  | .getError m => m
  | .fault m => m

/-- One remote action performed by the publication client. -/
inductive GLEvent where
  | getProjectE (project_id : Int)
  | getBranchE (branch : String)
  | deleteBranchE (branch : String)
  | createBranchE (branch ref : String)
  | createFileE (path branch : String)
  | createMRE (source_branch target_branch : String)
deriving DecidableEq, Repr

/-- The remote hosting service's behaviour, one field per API call. -/
structure GitLab where
  getProject : Int → Except GLErr Unit
  getBranch : Int → String → Except GLErr Unit
  deleteBranch : Int → String → Except GLErr Unit
  createBranch : Int → String → String → Except GLErr Unit
  createFile : Int → String → String → String → Except GLErr Unit
  createMR : Int → String → String → String → String → Except GLErr (Int × String)

/-- The dictionary returned by `create_merge_request` on success. -/
structure MRInfo where
  merge_request_id : Int
  merge_request_url : String
  source_branch : String
  target_branch : String
deriving DecidableEq, Repr

/-- The per-file commit loop of `create_merge_request`: create each file
on the source branch in order, aborting at the first exception. -/
def createFilesLoop (gl : GitLab) (project_id : Int) (branch : String) :
    List (String × String) → Option GLErr × List GLEvent
  | [] => (Option.none, [])
  | (path, content) :: rest =>
    match gl.createFile project_id path branch content with
    | .error e => (some e, [.createFileE path branch])
    | .ok _ =>
      ((createFilesLoop gl project_id branch rest).1,
       .createFileE path branch :: (createFilesLoop gl project_id branch rest).2)

/-- The tail of `create_merge_request` once the working branch exists:
commit each file individually, then open the merge request; the first
exception aborts the remaining steps. -/
def commitAndMR (gl : GitLab) (project_id : Int) (terraform_files : List (String × String))
    (source_branch target_branch title description : String) :
    Except GLErr MRInfo × List GLEvent :=
  match createFilesLoop gl project_id source_branch terraform_files with
  | (some e, fileEvs) => (.error e, fileEvs)
  | (Option.none, fileEvs) =>
    match gl.createMR project_id source_branch target_branch title description with
    | .error e => (.error e, fileEvs ++ [.createMRE source_branch target_branch])
    | .ok (mrId, mrUrl) =>
      (.ok { merge_request_id := mrId, merge_request_url := mrUrl,
             source_branch := source_branch, target_branch := target_branch },
       fileEvs ++ [.createMRE source_branch target_branch])

/-- `GitLabService.create_merge_request`: fetch the project; look up the
source branch and delete it if present, tolerating `GitlabGetError` from
that inner block as a no-op; create the branch from `target_branch`;
commit each file individually; open the merge request.  Any uncaught
exception aborts the remaining steps and propagates (the outer handler
logs and re-raises); nothing already created is rolled back. -/
def create_merge_request (gl : GitLab) (_token : String) (project_id : Int)
    (terraform_files : List (String × String)) (source_branch : String)
    (target_branch : String := "main")
    (title : String := "Ajout de ressources Terraform")
    (description : String := "Ressources Terraform générées automatiquement") :
    Except GLErr MRInfo × List GLEvent :=
  match gl.getProject project_id with
  | .error e => (.error e, [.getProjectE project_id])
  | .ok _ =>
    let branchStep : Option GLErr × List GLEvent :=
      match gl.getBranch project_id source_branch with
      | .ok _ =>
        match gl.deleteBranch project_id source_branch with
        | .ok _ => (Option.none, [.getBranchE source_branch, .deleteBranchE source_branch])
        | .error (.getError _) =>
          (Option.none, [.getBranchE source_branch, .deleteBranchE source_branch])
        | .error e => (some e, [.getBranchE source_branch, .deleteBranchE source_branch])
      | .error (.getError _) => (Option.none, [.getBranchE source_branch])
      | .error e => (some e, [.getBranchE source_branch])
    let ev0 := .getProjectE project_id :: branchStep.2
    match branchStep.1 with
    | some e => (.error e, ev0)
    | Option.none =>
      match gl.createBranch project_id source_branch target_branch with
      | .error e => (.error e, ev0 ++ [.createBranchE source_branch target_branch])
      | .ok _ =>
        let tail := commitAndMR gl project_id terraform_files source_branch target_branch
          title description
        (tail.1, (ev0 ++ [.createBranchE source_branch target_branch]) ++ tail.2)

/-! ## Orchestrator (`generate_terraform` in `src/app/routes/terraform_routes.py`)

The handler is modelled after input-schema validation has succeeded
(the marshmallow schema and the HTTP framework are external).  It returns
the HTTP status, the response body, and the ordered list of pipeline
steps it performed — including any status-ledger writes, so that their
presence or absence is a provable statement. -/

/-- `resource_data.get('name', f"resource-\x7brequest_id\x7d")`, stringified as the
route's f-strings do. -/
def mkResourceName (resource_data : Row) (request_id : Int) : String :=
  pyStr ((dictGet resource_data "name").getD (.leaf (.str ("resource-" ++ toString request_id))))

/-- The deterministic source-branch name built by the route. -/
def mkSourceBranch (cloud_id resource_type resource_name : String) : String :=
  "feature/" ++ cloud_id ++ "-" ++ resource_type ++ "-" ++ resource_name

/-- The Terraform file path built by the route. -/
def mkFilePath (cloud_id resource_type resource_name : String) : String :=
  cloud_id ++ "/" ++ resource_type ++ "/" ++ resource_name ++ ".tf"

/-- The merge-request title built by the route. -/
def mkTitle (cloud_id resource_type resource_name : String) : String :=
  "Ajout de " ++ cloud_id ++ " " ++ resource_type ++ ": " ++ resource_name

/-- The merge-request description built by the route. -/
def mkDescription (cloud_id resource_type : String) (module_version : PyValue)
    (request_id : Int) : String :=
  "Ressource Terraform générée automatiquement\nCloud: " ++ cloud_id ++
  "\nType: " ++ resource_type ++
  "\nModule version: " ++ pyStr module_version ++
  "\nID de la demande: " ++ toString request_id

/-- Python falsiness of the template lookup result (`if not template`):
absent, or the empty template text. -/
def templateFalsy : Option TmplSrc → Bool
  | Option.none => true
  | some t => ¬ srcTruthy t

/-- Python falsiness of the token lookup result (`if not gitlab_token`):
absent, or the empty string. -/
def tokenFalsy : Option String → Bool
  | Option.none => true
  | some t => t = ""

/-- Python falsiness of the project-id lookup result (`if not project_id`):
absent, or zero. -/
def projectFalsy : Option Int → Bool
  | Option.none => true
  | some n => n = 0

/-- A pipeline step performed by the request handler. -/
inductive Ev where
  | evResource
  | evTemplate
  | evRender
  | evValidate
  | evToken
  | evProject
  | evPublish
  | evLedger (status : String)
deriving DecidableEq, Repr

/-- The JSON body of a handler response. -/
inductive Body where
  | errResourceNotFound
  | errModuleVersion
  | errTemplateNotFound
  | errValidation (details : List String) (terraform_code : String)
  | errTokenNotFound
  | errProjectNotFound
  | errServer (details : String)
  | okMR (merge_request : MRInfo)
deriving DecidableEq, Repr

/-- A handler response: HTTP status, body, and performed steps. -/
structure Resp where
  status : Nat
  body : Body
  events : List Ev
deriving DecidableEq, Repr

/-- The route handler `generate_terraform`, translated gate by gate from
the source: resource lookup, `module_version` check, template lookup,
render, structural validation, token lookup, project lookup, publish;
each failure short-circuits with the source's status code, and any
exception from render or publish is caught by the outer handler as a
500 response carrying `str(e)`. -/
def generate_terraform (st : Store) (gl : GitLab)
    (username cloud_id resource_type : String) (request_id : Int) : Resp :=
  let resource_data := (get_resource_data st cloud_id resource_type request_id).1
  if resource_data.isEmpty then
    { status := 404, body := .errResourceNotFound, events := [.evResource] }
  else
    let module_version := (dictGet resource_data "module_version").getD (.leaf .none)
    if ¬ pyTruthy module_version then
      { status := 400, body := .errModuleVersion, events := [.evResource] }
    else
      match get_jinja_template st cloud_id resource_type module_version with
      | Option.none =>
        { status := 404, body := .errTemplateNotFound, events := [.evResource, .evTemplate] }
      | some tsrc =>
        if ¬ srcTruthy tsrc then
          { status := 404, body := .errTemplateNotFound, events := [.evResource, .evTemplate] }
        else
          match render_terraform_code tsrc resource_data with
          | .error e =>
            { status := 500, body := .errServer e,
              events := [.evResource, .evTemplate, .evRender] }
          | .ok terraform_code =>
            let validation := validate_terraform_files terraform_code
            if ¬ validation.is_valid then
              { status := 400, body := .errValidation validation.errors terraform_code,
                events := [.evResource, .evTemplate, .evRender, .evValidate] }
            else
              match get_user_gitlab_token st username with
              | Option.none =>
                { status := 404, body := .errTokenNotFound,
                  events := [.evResource, .evTemplate, .evRender, .evValidate, .evToken] }
              | some gitlab_token =>
                if gitlab_token = "" then
                  { status := 404, body := .errTokenNotFound,
                    events := [.evResource, .evTemplate, .evRender, .evValidate, .evToken] }
                else
                  match (get_gitlab_project_id st cloud_id resource_type request_id).1 with
                  | Option.none =>
                    { status := 404, body := .errProjectNotFound,
                      events := [.evResource, .evTemplate, .evRender, .evValidate,
                                 .evToken, .evProject] }
                  | some project_id =>
                    if project_id = 0 then
                      { status := 404, body := .errProjectNotFound,
                        events := [.evResource, .evTemplate, .evRender, .evValidate,
                                   .evToken, .evProject] }
                    else
                      let resource_name := mkResourceName resource_data request_id
                      let source_branch := mkSourceBranch cloud_id resource_type resource_name
                      let file_path := mkFilePath cloud_id resource_type resource_name
                      let title := mkTitle cloud_id resource_type resource_name
                      let description :=
                        mkDescription cloud_id resource_type module_version request_id
                      match (create_merge_request gl gitlab_token project_id
                          [(file_path, terraform_code)] source_branch "main"
                          title description).1 with
                      | .error e =>
                        { status := 500, body := .errServer (glErrMsg e),
                          events := [.evResource, .evTemplate, .evRender, .evValidate,
                                     .evToken, .evProject, .evPublish] }
                      | .ok mr =>
                        { status := 200, body := .okMR mr,
                          events := [.evResource, .evTemplate, .evRender, .evValidate,
                                     .evToken, .evProject, .evPublish] }

/-- Is a pipeline step a status-ledger write? -/
def isLedgerEv : Ev → Bool
  | .evLedger _ => true
  | _ => false

/-! ## Call sequences against the status ledger -/

/-- The arguments of one `save_generation_status` call. -/
structure SaveCall where
  now : Nat
  storeOk : Bool
  apex_request_id : Int
  username : String
  cloud_id : String
  resource_type : String
  status : String
  message : String
  merge_request_url : Option String
deriving DecidableEq, Repr

/-- Apply one `save_generation_status` call to the table. -/
def applySave (table : List StatusRow) (call : SaveCall) : List StatusRow :=
  save_generation_status table call.now call.storeOk call.apex_request_id call.username
    call.cloud_id call.resource_type call.status call.message call.merge_request_url

/-- At most one row per `apex_request_id`. -/
def uniqueIds (table : List StatusRow) : Prop :=
  table.Pairwise (fun a b => a.apex_request_id ≠ b.apex_request_id)

/-! ## Concrete fixtures (used by witnesses and counterexamples) -/

/-- A store where every query succeeds with an empty result. -/
def stEmpty : Store where
  main := fun _ _ => .ok Option.none
  sg := fun _ _ => .ok []
  tmpl := fun _ _ _ => .ok Option.none
  token := fun _ => .ok Option.none
  projectId := fun _ _ => .ok Option.none

/-- A store where every query raises. -/
def stDown : Store where
  main := fun _ _ => .error "down"
  sg := fun _ _ => .error "down"
  tmpl := fun _ _ _ => .error "down"
  token := fun _ => .error "down"
  projectId := fun _ _ => .error "down"

/-- The sample resource row of the spec's end-to-end property. -/
def rowHappy : Row :=
  [("id", .leaf (.int 1)), ("name", .leaf (.str "db1")),
   ("module_version", .leaf (.str "2.3.0"))]

/-- The sample template: renders to a brace-delimited `resource` block. -/
def tmplHappy : TmplSrc :=
  .parsed [.lit "resource \"db\" \x7b name = ", .var "name", .lit " \x7d"]

/-- A store holding the sample row, template, token and project id. -/
def stHappy : Store where
  main := fun _ _ => .ok (some rowHappy)
  sg := fun _ _ => .ok []
  tmpl := fun _ _ _ => .ok (some tmplHappy)
  token := fun _ => .ok (some "tok")
  projectId := fun _ _ => .ok (some 42)

/-- Like `stHappy`, but the secondary `sg_rules` query raises. -/
def stSgDown : Store where
  main := fun _ _ => .ok (some rowHappy)
  sg := fun _ _ => .error "down"
  tmpl := fun _ _ _ => .ok (some tmplHappy)
  token := fun _ => .ok (some "tok")
  projectId := fun _ _ => .ok (some 42)

/-- A hosting service where every call succeeds and the source branch
does not exist yet (its lookup raises `GitlabGetError`). -/
def glHappy : GitLab where
  getProject := fun _ => .ok ()
  getBranch := fun _ _ => .error (.getError "404 Branch Not Found")
  deleteBranch := fun _ _ => .ok ()
  createBranch := fun _ _ _ => .ok ()
  createFile := fun _ _ _ _ => .ok ()
  createMR := fun _ _ _ _ _ => .ok (7, "https://gitlab.example/mr/7")

/-- Like `glHappy`, but the source branch already exists. -/
def glBranchExists : GitLab where
  getProject := fun _ => .ok ()
  getBranch := fun _ _ => .ok ()
  deleteBranch := fun _ _ => .ok ()
  createBranch := fun _ _ _ => .ok ()
  createFile := fun _ _ _ _ => .ok ()
  createMR := fun _ _ _ _ _ => .ok (7, "https://gitlab.example/mr/7")

/-- Like `glBranchExists`, but deleting the stale branch raises a
non-lookup fault. -/
def glDeleteFault : GitLab where
  getProject := fun _ => .ok ()
  getBranch := fun _ _ => .ok ()
  deleteBranch := fun _ _ => .error (.fault "delete refused")
  createBranch := fun _ _ _ => .ok ()
  createFile := fun _ _ _ _ => .ok ()
  createMR := fun _ _ _ _ _ => .ok (7, "https://gitlab.example/mr/7")

/-! ## Theorems -/

/-- C4: for every `cloud_id` outside the allow-list `\x7baws, gcp, azure\x7d` and
every `resource_type` and `request_id`, `get_resource_data` returns the
empty mapping and executes no store query at all. -/
theorem get_resource_data_allowlist_guard (st : Store) (cloud_id resource_type : String)
    (request_id : Int) (h : cloud_id ∉ allowed_clouds) :
    get_resource_data st cloud_id resource_type request_id = ([], []) := by
  simp [get_resource_data, h]

theorem get_resource_data_allowlist_guard_witness :
    "alicloud" ∉ allowed_clouds ∧ get_resource_data stEmpty "alicloud" "rds" 1 = ([], []) :=
  ⟨by decide, get_resource_data_allowlist_guard stEmpty "alicloud" "rds" 1 (by decide)⟩

/-- C5: `get_gitlab_project_id` applies no allow-list check: for every
`cloud_id` and `resource_type` — disallowed values included — it executes
exactly one query against the interpolated view
`v_\x7bcloud_id\x7d_\x7bresource_type\x7d_requests`, while `get_resource_data`, whose
guard it does not share, executes none for disallowed input. -/
theorem get_gitlab_project_id_no_allowlist (st : Store) (cloud_id resource_type : String)
    (request_id : Int) :
    (get_gitlab_project_id st cloud_id resource_type request_id).2
      = [Query.projQ ("v_" ++ cloud_id ++ "_" ++ resource_type ++ "_requests") request_id] ∧
    (cloud_id ∉ allowed_clouds →
      (get_resource_data st cloud_id resource_type request_id).2 = []) := by
  constructor
  · unfold get_gitlab_project_id
    cases h : st.projectId ("v_" ++ cloud_id ++ "_" ++ resource_type ++ "_requests")
        request_id <;> simp [h]
  · intro h
    simp [get_resource_data, h]

theorem get_gitlab_project_id_no_allowlist_witness :
    (get_gitlab_project_id stEmpty "alicloud" "rds" 1).2
      = [Query.projQ "v_alicloud_rds_requests" 1] ∧
    "alicloud" ∉ allowed_clouds ∧
    (get_resource_data stEmpty "alicloud" "rds" 1).2 = [] :=
  ⟨(get_gitlab_project_id_no_allowlist stEmpty "alicloud" "rds" 1).1, by decide,
   (get_gitlab_project_id_no_allowlist stEmpty "alicloud" "rds" 1).2 (by decide)⟩

/-- C9: `get_jinja_template`, `get_user_gitlab_token` and
`get_gitlab_project_id` never raise: each equals the store result with
both the fault case and the no-matching-row case collapsed to `none`
(`Except.toOption` then `Option.join`), so the caller sees `none` in
either case. -/
theorem lookups_never_raise (st : Store) (cloud_id resource_type : String)
    (module_version : PyValue) (username : String) (request_id : Int) :
    get_jinja_template st cloud_id resource_type module_version
      = (st.tmpl cloud_id resource_type module_version).toOption.join ∧
    get_user_gitlab_token st username = (st.token username).toOption.join ∧
    (get_gitlab_project_id st cloud_id resource_type request_id).1
      = (st.projectId ("v_" ++ cloud_id ++ "_" ++ resource_type ++ "_requests")
          request_id).toOption.join := by
  refine ⟨?_, ?_, ?_⟩
  · unfold get_jinja_template
    cases st.tmpl cloud_id resource_type module_version <;> simp [Except.toOption]
  · unfold get_user_gitlab_token
    cases st.token username <;> simp [Except.toOption]
  · unfold get_gitlab_project_id
    cases h : st.projectId ("v_" ++ cloud_id ++ "_" ++ resource_type ++ "_requests")
        request_id <;> simp [h, Except.toOption]

/-- C3 counterexample: for the allow-listed cloud `aws`, a fault raised
by the store during the primary row query does NOT propagate —
`get_resource_data` returns the empty mapping, byte-identical to the
"no such resource" result on `stEmpty`, while the spec-modelled contract
`get_resource_data_spec` would have raised the fault. -/
theorem get_resource_data_swallows_primary_fault :
    get_resource_data stDown "aws" "rds" 1 = ([], [.mainQ "v_aws_rds_requests" 1]) ∧
    get_resource_data stEmpty "aws" "rds" 1 = ([], [.mainQ "v_aws_rds_requests" 1]) ∧
    get_resource_data_spec stDown "aws" "rds" 1 = .error "down" := by
  refine ⟨?_, ?_, ?_⟩ <;> rfl

/-- C3 amended: for every allow-listed `cloud_id`, a fault during the
primary row query is swallowed and yields the empty mapping — so the
caller cannot distinguish "no such resource" from "store unreachable" —
and a fault during the secondary `sg_rules` query is swallowed and
yields an empty `sg_rules` list on the returned row. -/
theorem get_resource_data_fault_behavior (st : Store) (cloud_id resource_type : String)
    (request_id : Int) (e : String) (row : Row) (hc : cloud_id ∈ allowed_clouds) :
    (st.main ("v_" ++ cloud_id ++ "_" ++ resource_type ++ "_requests") request_id = .error e →
      (get_resource_data st cloud_id resource_type request_id).1 = []) ∧
    (st.main ("v_" ++ cloud_id ++ "_" ++ resource_type ++ "_requests") request_id
        = .ok Option.none →
      (get_resource_data st cloud_id resource_type request_id).1 = []) ∧
    (st.main ("v_" ++ cloud_id ++ "_" ++ resource_type ++ "_requests") request_id
        = .ok (some row) →
      st.sg ("v_" ++ cloud_id ++ "_" ++ resource_type ++ "_requests_sg_ingress") request_id
        = .error e →
      (get_resource_data st cloud_id resource_type request_id).1
        = dictSet row "sg_rules" (.rows [])) := by
  have hc' : ¬ cloud_id ∉ allowed_clouds := not_not_intro hc
  refine ⟨?_, ?_, ?_⟩
  · intro hmain
    simp [get_resource_data, hc', hmain]
  · intro hmain
    simp [get_resource_data, hc', hmain]
  · intro hmain hsg
    simp [get_resource_data, hc', hmain, get_sg_rules, hsg]

theorem get_resource_data_fault_behavior_witness :
    (get_resource_data stDown "aws" "rds" 1).1 = [] ∧
    (get_resource_data stEmpty "aws" "rds" 1).1 = [] ∧
    (get_resource_data stSgDown "aws" "rds" 1).1 = dictSet rowHappy "sg_rules" (.rows []) :=
  ⟨(get_resource_data_fault_behavior stDown "aws" "rds" 1 "down" [] (by decide)).1 rfl,
   (get_resource_data_fault_behavior stEmpty "aws" "rds" 1 "down" [] (by decide)).2.1 rfl,
   (get_resource_data_fault_behavior stSgDown "aws" "rds" 1 "down" rowHappy
      (by decide)).2.2 rfl rfl⟩

/-- Under the lenient undefined policy, rendering parsed segments never
fails. -/
theorem renderSegs_lenient_ok (data : Row) (segs : List Seg) :
    ∃ s, renderSegs .lenient data segs = .ok s := by
  induction segs with
  | nil => exact ⟨"", rfl⟩
  | cons seg rest ih =>
    obtain ⟨s, hs⟩ := ih
    cases seg with
    | lit t => exact ⟨t ++ s, by simp [renderSegs, hs, Except.map]⟩
    | var n =>
      cases h : dictGet data n with
      | none => exact ⟨"" ++ s, by simp [renderSegs, h, hs, Except.map]⟩
      | some v => exact ⟨pyStr v ++ s, by simp [renderSegs, h, hs, Except.map]⟩

/-- C6 counterexample: a template that references a variable absent from
the data mapping renders successfully (to empty text) instead of failing
with a rendering error — the service's Jinja environment uses the
default, lenient undefined policy. -/
theorem render_undefined_var_no_error :
    render_terraform_code (.parsed [.var "missing"]) [] = .ok "" := by rfl

/-- C6 amended: `render_terraform_code` fails with a rendering error
exactly when the template uses invalid syntax; a reference to a variable
absent from the data mapping renders as empty text without error. -/
theorem render_fails_only_on_invalid_source (tmpl : TmplSrc) (data : Row) (n : String) :
    ((∃ e, render_terraform_code tmpl data = .error e) ↔ (∃ msg, tmpl = .invalid msg)) ∧
    (dictGet data n = Option.none →
      render_terraform_code (.parsed [.var n]) data = .ok "") := by
  constructor
  · constructor
    · rintro ⟨e, he⟩
      cases tmpl with
      | invalid msg => exact ⟨msg, rfl⟩
      | parsed segs =>
        obtain ⟨s, hs⟩ := renderSegs_lenient_ok data segs
        simp [render_terraform_code, jinjaRender, hs] at he
    · rintro ⟨msg, rfl⟩
      exact ⟨"Erreur lors de la génération du code Terraform: " ++ msg, rfl⟩
  · intro h
    simp [render_terraform_code, jinjaRender, renderSegs, h, Except.map]

theorem render_fails_only_on_invalid_source_witness :
    dictGet [] "missing" = Option.none ∧
    render_terraform_code (.parsed [.var "missing"]) [] = .ok "" :=
  ⟨rfl, (render_fails_only_on_invalid_source (.parsed [.var "missing"]) [] "missing").2 rfl⟩

/-- Filtering a list of scalar values mirrors filtering the scalars. -/
theorem filter_map_leaf (xs : List PyLeaf) :
    (xs.map PyValue.leaf).filter pyTruthy = (xs.filter pyLeafTruthy).map PyValue.leaf := by
  induction xs with
  | nil => rfl
  | cons x xs ih =>
    by_cases h : pyLeafTruthy x <;> simp [List.filter, pyTruthy, h, ih]

/-- Quoting scalar values mirrors quoting the scalars. -/
theorem quote_map_leaf (xs : List PyLeaf) :
    (xs.map PyValue.leaf).map (fun v => "\"" ++ pyStr v ++ "\"")
      = xs.map (fun x => "\"" ++ pyLeafStr x ++ "\"") := by
  simp [List.map_map, Function.comp, pyStr]

/-- Filter-then-quote over wrapped stripped strings equals the same over
the raw strings. -/
theorem filter_quote_str (f : String → String) (l : List String) :
    (((l.map (fun e => PyValue.leaf (.str (f e)))).filter pyTruthy).map
        (fun v => "\"" ++ pyStr v ++ "\""))
      = (((l.map f).filter (fun x : String => x ≠ "")).map
          (fun x => "\"" ++ x ++ "\"")) := by
  induction l with
  | nil => rfl
  | cons a l ih =>
    by_cases h : f a = ""
    · rw [List.map_cons, List.map_cons,
        List.filter_cons_of_neg (by simp [pyTruthy, pyLeafTruthy, h]),
        List.filter_cons_of_neg (by simp [h]), ih]
    · rw [List.map_cons, List.map_cons,
        List.filter_cons_of_pos (by simp [pyTruthy, pyLeafTruthy, h]),
        List.filter_cons_of_pos (by simp [h]), List.map_cons, List.map_cons, ih]
      rfl

/-- Wrapping one quoted item in brackets gives the one-item list literal. -/
theorem quote_wrap (x : String) : "[" ++ ("\"" ++ x ++ "\"") ++ "]" = "[\"" ++ x ++ "\"]" := by
  simp only [String.append_assoc]
  rw [← String.append_assoc]
  rfl

/-- C10 counterexample: the list helper does not quote *each* item of a
native list — falsy items are dropped: `["a", ""]` becomes `["a"]`, not
`["a", ""]`. -/
theorem to_terraform_list_drops_falsy_items :
    to_terraform_list (.list [.str "a", .str ""]) = "[\"a\"]" ∧
    to_terraform_list (.list [.str "a", .str ""]) ≠ "[\"a\", \"\"]" := by
  constructor <;> decide

/-- C10 amended: the string helper maps `None` to the literal `null` and
any other value `v` to `"v"`; the list helper maps any falsy input to
`[]`, maps a bracketed string by stripping the outer brackets, splitting
on commas, trimming whitespace and quoting each *truthy* item (falsy
items are dropped), maps a native list by quoting each *truthy* item, and
maps any other truthy scalar to a one-item quoted list; in particular the
spec's four examples hold. -/
theorem to_terraform_helpers_spec (v : PyValue) (xs : List PyLeaf) (s : String) (l : PyLeaf) :
    to_terraform_string (.leaf .none) = "null" ∧
    (v ≠ .leaf .none → to_terraform_string v = "\"" ++ pyStr v ++ "\"") ∧
    (pyTruthy v = false → to_terraform_list v = "[]") ∧
    (xs ≠ [] → to_terraform_list (.list xs)
      = "[" ++ String.intercalate ", "
          ((xs.filter pyLeafTruthy).map (fun x => "\"" ++ pyLeafStr x ++ "\"")) ++ "]") ∧
    (s ≠ "" → strStartsWith s '[' = true → strEndsWith s ']' = true →
      to_terraform_list (.leaf (.str s))
        = "[" ++ String.intercalate ", "
            ((((pySplit ⟨s.toList.drop 1 |>.dropLast⟩ ',').map pyStrip).filter
                (fun x : String => x ≠ "")).map (fun x => "\"" ++ x ++ "\"")) ++ "]") ∧
    (pyLeafTruthy l = true →
      (∀ t, l = .str t → ¬ (strStartsWith t '[' = true ∧ strEndsWith t ']' = true)) →
      to_terraform_list (.leaf l) = "[\"" ++ pyLeafStr l ++ "\"]") ∧
    to_terraform_list (.list []) = "[]" ∧
    to_terraform_list (.leaf (.str "a")) = "[\"a\"]" ∧
    to_terraform_list (.list [.str "a", .str "b"]) = "[\"a\", \"b\"]" ∧
    to_terraform_string (.leaf .none) = "null" := by
  refine ⟨rfl, ?_, ?_, ?_, ?_, ?_, by decide, by decide, by decide, rfl⟩
  · intro h
    rw [to_terraform_string, if_neg h]
  · intro h
    rw [to_terraform_list, if_pos]
    simp [h]
  · intro h
    have ht : pyTruthy (.list xs) = true := by
      simp [pyTruthy, List.isEmpty_eq_true, h]
    rw [to_terraform_list, if_neg (by simp [ht])]
    simp only [terraformListItems, filter_map_leaf, quote_map_leaf]
  · intro hs h1 h2
    have ht : pyTruthy (.leaf (.str s)) = true := by
      simp [pyTruthy, pyLeafTruthy, hs]
    rw [to_terraform_list, if_neg (by simp [ht])]
    simp only [terraformListItems, if_pos (And.intro h1 h2), pySplit]
    rw [filter_quote_str]
  · intro ht hnb
    have htr : pyTruthy (.leaf l) = true := ht
    rw [to_terraform_list, if_neg (by simp [htr])]
    have hitems : terraformListItems (.leaf l) = [.leaf l] := by
      cases l with
      | str t =>
        have := hnb t rfl
        simp only [terraformListItems, if_neg this]
      | none => rfl
      | int n => rfl
      | bool b => rfl
    rw [hitems]
    rw [show List.filter pyTruthy [PyValue.leaf l] = [PyValue.leaf l] from by
      simp [List.filter, htr]]
    exact quote_wrap (pyLeafStr l)

theorem to_terraform_helpers_spec_witness :
    to_terraform_string (.leaf (.str "x")) = "\"x\"" ∧
    to_terraform_list (.leaf (.str "")) = "[]" ∧
    to_terraform_list (.list [.str "a", .str "b"])
      = "[" ++ String.intercalate ", "
          (([PyLeaf.str "a", .str "b"].filter pyLeafTruthy).map
            (fun x => "\"" ++ pyLeafStr x ++ "\"")) ++ "]" ∧
    to_terraform_list (.leaf (.str "[a, b]"))
      = "[" ++ String.intercalate ", "
          ((((pySplit ⟨("[a, b]".toList.drop 1 |>.dropLast)⟩ ',').map pyStrip).filter
              (fun x : String => x ≠ "")).map (fun x => "\"" ++ x ++ "\"")) ++ "]" ∧
    to_terraform_list (.leaf (.int 3)) = "[\"3\"]" :=
  ⟨(to_terraform_helpers_spec (.leaf (.str "x")) [] "" (.int 3)).2.1 (by decide),
   (to_terraform_helpers_spec (.leaf (.str "")) [] "" (.int 3)).2.2.1 (by decide),
   (to_terraform_helpers_spec (.leaf (.str "")) [.str "a", .str "b"] ""
      (.int 3)).2.2.2.1 (by decide),
   (to_terraform_helpers_spec (.leaf (.str "")) [] "[a, b]" (.int 3)).2.2.2.2.1
      (by decide) (by decide) (by decide),
   (to_terraform_helpers_spec (.leaf (.str "")) [] "" (.int 3)).2.2.2.2.2.1
      (by decide) (by intro t h; cases h)⟩

/-- One ledger write preserves key uniqueness. -/
theorem save_preserves_uniqueIds (table : List StatusRow) (now : Nat) (ok : Bool)
    (id : Int) (u c rt s m : String) (mru : Option String) (hu : uniqueIds table) :
    uniqueIds (save_generation_status table now ok id u c rt s m mru) := by
  unfold save_generation_status
  split
  · exact hu
  · split
    · exact hu.map _ (fun a b hab => by
        show (if a.apex_request_id = id then _ else a).apex_request_id
          ≠ (if b.apex_request_id = id then _ else b).apex_request_id
        split <;> split <;> simp_all)
    · next hany =>
      rw [uniqueIds, List.pairwise_append]
      refine ⟨hu, List.pairwise_singleton _ _, ?_⟩
      intro a ha b hb
      simp only [List.mem_singleton] at hb
      subst hb
      have hall : ∀ x ∈ table, x.apex_request_id ≠ id := by
        intro x hx hxe
        exact hany (List.any_eq_true.mpr ⟨x, hx, by simp [hxe]⟩)
      exact hall a ha

/-- Ledger writes starting from an empty table keep key uniqueness. -/
theorem foldl_save_uniqueIds (calls : List SaveCall) :
    ∀ init : List StatusRow, uniqueIds init → uniqueIds (calls.foldl applySave init) := by
  induction calls with
  | nil => exact fun init h => h
  | cons call calls ih =>
    intro init h
    exact ih _ (save_preserves_uniqueIds _ _ _ _ _ _ _ _ _ _ h)

/-- C7: the Status Ledger is an upsert keyed by `apex_request_id`: a
write for an absent key appends exactly one fresh row with `started_at`
set and no `finished_at`; a write for a present key inserts no row — the
key multiset is unchanged — and overwrites that row's `status`,
`message`, `finished_at` and `merge_request_url` while preserving its
`started_at` and identity fields; every write preserves at-most-one-row-
per-key, and any sequence of writes from an empty table keeps it. -/
theorem save_generation_status_upsert (table : List StatusRow) (now : Nat) (ok : Bool)
    (id : Int) (u c rt s m : String) (mru : Option String) (calls : List SaveCall) :
    (uniqueIds table → uniqueIds (save_generation_status table now ok id u c rt s m mru)) ∧
    ((∀ r ∈ table, r.apex_request_id ≠ id) →
      save_generation_status table now true id u c rt s m mru
        = table ++ [{ apex_request_id := id, username := u, cloud_id := c,
                      resource_type := rt, status := s, message := m, started_at := now,
                      finished_at := Option.none, merge_request_url := mru }]) ∧
    ((∃ r ∈ table, r.apex_request_id = id) →
      (save_generation_status table now true id u c rt s m mru).map (·.apex_request_id)
          = table.map (·.apex_request_id) ∧
      (save_generation_status table now true id u c rt s m mru).length = table.length ∧
      ∀ r' ∈ save_generation_status table now true id u c rt s m mru,
        (r'.apex_request_id ≠ id → r' ∈ table) ∧
        (r'.apex_request_id = id →
          r'.status = s ∧ r'.message = m ∧ r'.finished_at = some now ∧
          r'.merge_request_url = mru ∧
          ∃ r ∈ table, r.apex_request_id = id ∧ r'.started_at = r.started_at ∧
            r'.username = r.username ∧ r'.cloud_id = r.cloud_id ∧
            r'.resource_type = r.resource_type)) ∧
    uniqueIds (calls.foldl applySave []) := by
  refine ⟨save_preserves_uniqueIds table now ok id u c rt s m mru, ?_, ?_,
    foldl_save_uniqueIds calls [] (List.Pairwise.nil)⟩
  · intro h
    unfold save_generation_status
    rw [if_neg (by simp), if_neg]
    intro hany
    obtain ⟨x, hx, hxe⟩ := List.any_eq_true.mp hany
    exact h x hx (by simpa using hxe)
  · rintro ⟨r0, hr0, hid0⟩
    have hany : table.any (fun r => r.apex_request_id = id) = true :=
      List.any_eq_true.mpr ⟨r0, hr0, by simp [hid0]⟩
    unfold save_generation_status
    rw [if_neg (by simp), if_pos hany]
    refine ⟨?_, List.length_map _ _, ?_⟩
    · rw [List.map_map]
      apply List.map_congr_left
      intro r _
      show (if r.apex_request_id = id then _ else r).apex_request_id = _
      split <;> rfl
    · intro r' hr'
      obtain ⟨r, hrm, hfr⟩ := List.mem_map.mp hr'
      by_cases hc : r.apex_request_id = id
      · rw [if_pos hc] at hfr
        subst hfr
        exact ⟨fun hne => absurd hc hne, fun _ =>
          ⟨rfl, rfl, rfl, rfl, r, hrm, hc, rfl, rfl, rfl, rfl⟩⟩
      · rw [if_neg hc] at hfr
        subst hfr
        exact ⟨fun _ => hrm, fun hje => absurd hje hc⟩

theorem save_generation_status_upsert_witness :
    save_generation_status [] 5 true 1 "u" "aws" "rds" "STARTED" "go" Option.none
      = [{ apex_request_id := 1, username := "u", cloud_id := "aws", resource_type := "rds",
           status := "STARTED", message := "go", started_at := 5,
           finished_at := Option.none, merge_request_url := Option.none }] ∧
    (save_generation_status
        [{ apex_request_id := 1, username := "u", cloud_id := "aws", resource_type := "rds",
           status := "STARTED", message := "go", started_at := 5,
           finished_at := Option.none, merge_request_url := Option.none }]
        9 true 1 "u" "aws" "rds" "SUCCESS" "done" (some "url")).map (·.apex_request_id)
      = [1] ∧
    uniqueIds (([] : List SaveCall).foldl applySave []) := by
  refine ⟨(save_generation_status_upsert [] 5 true 1 "u" "aws" "rds" "STARTED" "go"
      Option.none []).2.1 (by simp), ?_,
    (save_generation_status_upsert [] 5 true 1 "u" "aws" "rds" "STARTED" "go"
      Option.none []).2.2.2⟩
  have h2 := ((save_generation_status_upsert
      [{ apex_request_id := 1, username := "u", cloud_id := "aws", resource_type := "rds",
         status := "STARTED", message := "go", started_at := 5,
         finished_at := Option.none, merge_request_url := Option.none }]
      9 true 1 "u" "aws" "rds" "SUCCESS" "done" (some "url") []).2.2.1
    ⟨_, List.mem_singleton_self _, rfl⟩).1
  exact h2.trans (by decide)

/-- The commit loop succeeds when every file creation succeeds,
committing the files in order. -/
theorem createFilesLoop_all_ok (gl : GitLab) (pid : Int) (branch : String)
    (files : List (String × String))
    (h : ∀ f ∈ files, gl.createFile pid f.1 branch f.2 = .ok ()) :
    createFilesLoop gl pid branch files
      = (Option.none, files.map (fun f => .createFileE f.1 branch)) := by
  induction files with
  | nil => rfl
  | cons f fs ih =>
    cases f with
    | mk p c =>
      have hf := h (p, c) (List.mem_cons_self _ _)
      simp only [createFilesLoop, hf, ih (fun g hg => h g (List.mem_cons_of_mem _ hg)),
        List.map_cons]

/-- The commit loop aborts at the first failing file, after committing
exactly the files before it. -/
theorem createFilesLoop_abort (gl : GitLab) (pid : Int) (branch : String)
    (fs₁ fs₂ : List (String × String)) (p c : String) (e : GLErr)
    (h1 : ∀ f ∈ fs₁, gl.createFile pid f.1 branch f.2 = .ok ())
    (he : gl.createFile pid p branch c = .error e) :
    createFilesLoop gl pid branch (fs₁ ++ (p, c) :: fs₂)
      = (some e, fs₁.map (fun f => .createFileE f.1 branch) ++ [.createFileE p branch]) := by
  induction fs₁ with
  | nil => simp [createFilesLoop, he]
  | cons f fs ih =>
    cases f with
    | mk q d =>
      have hf := h1 (q, d) (List.mem_cons_self _ _)
      simp [createFilesLoop, hf, ih (fun g hg => h1 g (List.mem_cons_of_mem _ hg))]


/-- Every event the commit loop emits is a file creation on the working
branch. -/
theorem createFilesLoop_events (gl : GitLab) (pid : Int) (branch : String)
    (files : List (String × String)) :
    ∀ ev ∈ (createFilesLoop gl pid branch files).2, ∃ p, ev = GLEvent.createFileE p branch := by
  induction files with
  | nil => intro ev h; simp [createFilesLoop] at h
  | cons f fs ih =>
    cases f with
    | mk p c =>
      intro ev h
      cases hcf : gl.createFile pid p branch c with
      | error e =>
        simp only [createFilesLoop, hcf, List.mem_singleton] at h
        exact ⟨p, h⟩
      | ok u =>
        cases u
        simp only [createFilesLoop, hcf, List.mem_cons] at h
        rcases h with h | h
        · exact ⟨p, h⟩
        · exact ih ev h

/-- Every event the commit-and-merge tail emits is a file creation or
the merge-request creation. -/
theorem commitAndMR_events (gl : GitLab) (pid : Int) (files : List (String × String))
    (sb tb title desc : String) :
    ∀ ev ∈ (commitAndMR gl pid files sb tb title desc).2,
      (∃ p, ev = GLEvent.createFileE p sb) ∨ ev = GLEvent.createMRE sb tb := by
  intro ev h
  have hf := createFilesLoop_events gl pid sb files
  unfold commitAndMR at h
  cases h4 : createFilesLoop gl pid sb files with
  | mk ferr fevs =>
    rw [h4] at h hf
    cases ferr with
    | some e =>
      simp only at h
      exact .inl (hf ev h)
    | none =>
      cases h5 : gl.createMR pid sb tb title desc with
      | error e =>
        rw [h5] at h
        simp only [List.mem_append, List.mem_singleton] at h
        rcases h with h | h
        · exact .inl (hf ev h)
        · exact .inr h
      | ok pr =>
        cases pr
        rw [h5] at h
        simp only [List.mem_append, List.mem_singleton] at h
        rcases h with h | h
        · exact .inl (hf ev h)
        · exact .inr h

/-- The commit-and-merge tail on an all-success service. -/
theorem commitAndMR_ok (gl : GitLab) (pid : Int) (files : List (String × String))
    (sb tb title desc : String) (mrId : Int) (mrUrl : String)
    (hf : ∀ f ∈ files, gl.createFile pid f.1 sb f.2 = .ok ())
    (hmr : gl.createMR pid sb tb title desc = .ok (mrId, mrUrl)) :
    commitAndMR gl pid files sb tb title desc
      = (.ok { merge_request_id := mrId, merge_request_url := mrUrl,
               source_branch := sb, target_branch := tb },
         files.map (fun f => .createFileE f.1 sb) ++ [.createMRE sb tb]) := by
  unfold commitAndMR
  rw [createFilesLoop_all_ok gl pid sb files hf, hmr]

/-- The commit-and-merge tail when the merge-request call raises. -/
theorem commitAndMR_mr_fault (gl : GitLab) (pid : Int) (files : List (String × String))
    (sb tb title desc : String) (e : GLErr)
    (hf : ∀ f ∈ files, gl.createFile pid f.1 sb f.2 = .ok ())
    (hmr : gl.createMR pid sb tb title desc = .error e) :
    commitAndMR gl pid files sb tb title desc
      = (.error e, files.map (fun f => .createFileE f.1 sb) ++ [.createMRE sb tb]) := by
  unfold commitAndMR
  rw [createFilesLoop_all_ok gl pid sb files hf, hmr]

/-- The commit-and-merge tail when one file creation raises. -/
theorem commitAndMR_file_abort (gl : GitLab) (pid : Int)
    (fs₁ fs₂ : List (String × String)) (p c : String) (sb tb title desc : String) (e : GLErr)
    (h1 : ∀ f ∈ fs₁, gl.createFile pid f.1 sb f.2 = .ok ())
    (he : gl.createFile pid p sb c = .error e) :
    commitAndMR gl pid (fs₁ ++ (p, c) :: fs₂) sb tb title desc
      = (.error e, fs₁.map (fun f => .createFileE f.1 sb) ++ [.createFileE p sb]) := by
  unfold commitAndMR
  rw [createFilesLoop_abort gl pid sb fs₁ fs₂ p c e h1 he]

/-- C8: `create_merge_request` deletes a pre-existing source branch
before creating the new branch from the target branch, tolerates
"branch not found" (`GitlabGetError`) during that lookup as a no-op, and
propagates any other remote-service fault from any step — project fetch,
stale-branch delete, branch create, per-file commit, merge-request
create — aborting the remaining steps; each abort trace ends at the
failing step and contains no rollback of the branch or files already
created. -/
theorem create_merge_request_behavior (gl : GitLab) (tok : String) (pid : Int)
    (files : List (String × String)) (sb tb title desc : String) (e : GLErr) (m : String)
    (mrId : Int) (mrUrl : String) :
    (gl.getProject pid = .error e →
      create_merge_request gl tok pid files sb tb title desc
        = (.error e, [.getProjectE pid])) ∧
    (gl.getProject pid = .ok () → gl.getBranch pid sb = .ok () →
      ∃ rest, (create_merge_request gl tok pid files sb tb title desc).2
        = .getProjectE pid :: .getBranchE sb :: .deleteBranchE sb :: rest) ∧
    (gl.getProject pid = .ok () → gl.getBranch pid sb = .error (.getError m) →
      (∀ b, GLEvent.deleteBranchE b
          ∉ (create_merge_request gl tok pid files sb tb title desc).2) ∧
      ∃ rest, (create_merge_request gl tok pid files sb tb title desc).2
        = .getProjectE pid :: .getBranchE sb :: .createBranchE sb tb :: rest) ∧
    (gl.getProject pid = .ok () → gl.getBranch pid sb = .error (.fault m) →
      create_merge_request gl tok pid files sb tb title desc
        = (.error (.fault m), [.getProjectE pid, .getBranchE sb])) ∧
    (gl.getProject pid = .ok () → gl.getBranch pid sb = .ok () →
      gl.deleteBranch pid sb = .error (.fault m) →
      create_merge_request gl tok pid files sb tb title desc
        = (.error (.fault m), [.getProjectE pid, .getBranchE sb, .deleteBranchE sb])) ∧
    (gl.getProject pid = .ok () → gl.getBranch pid sb = .error (.getError m) →
      gl.createBranch pid sb tb = .error e →
      create_merge_request gl tok pid files sb tb title desc
        = (.error e, [.getProjectE pid, .getBranchE sb, .createBranchE sb tb])) ∧
    (∀ (fs₁ fs₂ : List (String × String)) (p c : String),
      gl.getProject pid = .ok () → gl.getBranch pid sb = .error (.getError m) →
      gl.createBranch pid sb tb = .ok () →
      files = fs₁ ++ (p, c) :: fs₂ →
      (∀ f ∈ fs₁, gl.createFile pid f.1 sb f.2 = .ok ()) →
      gl.createFile pid p sb c = .error e →
      create_merge_request gl tok pid files sb tb title desc
        = (.error e, [.getProjectE pid, .getBranchE sb, .createBranchE sb tb]
            ++ (fs₁.map (fun f => .createFileE f.1 sb) ++ [.createFileE p sb]))) ∧
    (gl.getProject pid = .ok () → gl.getBranch pid sb = .error (.getError m) →
      gl.createBranch pid sb tb = .ok () →
      (∀ f ∈ files, gl.createFile pid f.1 sb f.2 = .ok ()) →
      gl.createMR pid sb tb title desc = .error e →
      create_merge_request gl tok pid files sb tb title desc
        = (.error e, [.getProjectE pid, .getBranchE sb, .createBranchE sb tb]
            ++ (files.map (fun f => .createFileE f.1 sb) ++ [.createMRE sb tb]))) ∧
    (gl.getProject pid = .ok () → gl.getBranch pid sb = .error (.getError m) →
      gl.createBranch pid sb tb = .ok () →
      (∀ f ∈ files, gl.createFile pid f.1 sb f.2 = .ok ()) →
      gl.createMR pid sb tb title desc = .ok (mrId, mrUrl) →
      create_merge_request gl tok pid files sb tb title desc
        = (.ok { merge_request_id := mrId, merge_request_url := mrUrl,
                 source_branch := sb, target_branch := tb },
           [.getProjectE pid, .getBranchE sb, .createBranchE sb tb]
            ++ (files.map (fun f => .createFileE f.1 sb) ++ [.createMRE sb tb]))) := by
  refine ⟨?_, ?_, ?_, ?_, ?_, ?_, ?_, ?_, ?_⟩
  · intro h1
    simp [create_merge_request, h1]
  · intro h1 h2
    cases h3 : gl.deleteBranch pid sb with
    | ok u =>
      cases u
      cases h4 : gl.createBranch pid sb tb with
      | error e4 =>
        exact ⟨[.createBranchE sb tb], by simp [create_merge_request, h1, h2, h3, h4]⟩
      | ok u4 =>
        cases u4
        exact ⟨.createBranchE sb tb :: (commitAndMR gl pid files sb tb title desc).2,
          by simp [create_merge_request, h1, h2, h3, h4]⟩
    | error e3 =>
      cases e3 with
      | getError m3 =>
        cases h4 : gl.createBranch pid sb tb with
        | error e4 =>
          exact ⟨[.createBranchE sb tb], by simp [create_merge_request, h1, h2, h3, h4]⟩
        | ok u4 =>
          cases u4
          exact ⟨.createBranchE sb tb :: (commitAndMR gl pid files sb tb title desc).2,
            by simp [create_merge_request, h1, h2, h3, h4]⟩
      | fault m3 => exact ⟨[], by simp [create_merge_request, h1, h2, h3]⟩
  · intro h1 h2
    cases h4 : gl.createBranch pid sb tb with
    | error e4 =>
      constructor
      · intro b
        simp [create_merge_request, h1, h2, h4]
      · exact ⟨[], by simp [create_merge_request, h1, h2, h4]⟩
    | ok u4 =>
      cases u4
      constructor
      · intro b
        have hev := commitAndMR_events gl pid files sb tb title desc
        simp only [create_merge_request, h1, h2, h4, List.cons_append, List.nil_append,
          List.mem_cons, List.mem_append]
        rintro (h | h | h | h)
        · cases h
        · cases h
        · cases h
        · rcases hev _ h with ⟨p, hp⟩ | hp <;> cases hp
      · exact ⟨(commitAndMR gl pid files sb tb title desc).2,
          by simp [create_merge_request, h1, h2, h4]⟩
  · intro h1 h2
    simp [create_merge_request, h1, h2]
  · intro h1 h2 h3
    simp [create_merge_request, h1, h2, h3]
  · intro h1 h2 h3
    simp [create_merge_request, h1, h2, h3]
  · intro fs₁ fs₂ p c h1 h2 h3 hfi hok hbad
    subst hfi
    simp [create_merge_request, h1, h2, h3,
      commitAndMR_file_abort gl pid fs₁ fs₂ p c sb tb title desc e hok hbad]
  · intro h1 h2 h3 hok hmr
    simp [create_merge_request, h1, h2, h3,
      commitAndMR_mr_fault gl pid files sb tb title desc e hok hmr]
  · intro h1 h2 h3 hok hmr
    simp [create_merge_request, h1, h2, h3,
      commitAndMR_ok gl pid files sb tb title desc mrId mrUrl hok hmr]

theorem create_merge_request_behavior_witness :
    create_merge_request glHappy "tok" 42 [("main.tf", "code")] "feature/x" "main" "t" "d"
      = (.ok { merge_request_id := 7, merge_request_url := "https://gitlab.example/mr/7",
               source_branch := "feature/x", target_branch := "main" },
         [.getProjectE 42, .getBranchE "feature/x", .createBranchE "feature/x" "main",
          .createFileE "main.tf" "feature/x", .createMRE "feature/x" "main"]) ∧
    (∃ rest, (create_merge_request glBranchExists "tok" 42 [("main.tf", "code")]
        "feature/x" "main" "t" "d").2
      = .getProjectE 42 :: .getBranchE "feature/x" :: .deleteBranchE "feature/x" :: rest) ∧
    create_merge_request glDeleteFault "tok" 42 [("main.tf", "code")] "feature/x" "main" "t" "d"
      = (.error (.fault "delete refused"),
         [.getProjectE 42, .getBranchE "feature/x", .deleteBranchE "feature/x"]) := by
  refine ⟨?_, ?_, ?_⟩
  · exact ((create_merge_request_behavior glHappy "tok" 42 [("main.tf", "code")]
      "feature/x" "main" "t" "d" (.fault "") "404 Branch Not Found" 7
      "https://gitlab.example/mr/7").2.2.2.2.2.2.2.2 rfl rfl rfl (by decide) rfl).trans
      (by simp)
  · exact (create_merge_request_behavior glBranchExists "tok" 42 [("main.tf", "code")]
      "feature/x" "main" "t" "d" (.fault "") "" 7 "").2.1 rfl rfl
  · exact (create_merge_request_behavior glDeleteFault "tok" 42 [("main.tf", "code")]
      "feature/x" "main" "t" "d" (.fault "") "delete refused" 7 "").2.2.2.2.1 rfl rfl rfl

/-- C2: the orchestrator evaluates its gates in exactly the source's
order and short-circuits at the first unmet gate with the given HTTP
code: resource row not found → 404; `module_version` falsy on the row →
400; template not found → 404; render failure → 500; validation failure
→ 400 with the validation errors and the rendered text in the body; user
token not found → 404; project id not found → 404; publish failure →
500; when every gate passes, 200 with the merge request's id and URL.
The event list records which steps ran, so each short-circuit provably
performs no later step. -/
theorem generate_terraform_gate_cascade (st : Store) (gl : GitLab)
    (u c rt : String) (rid : Int) :
    ((get_resource_data st c rt rid).1 = [] →
      generate_terraform st gl u c rt rid
        = ⟨404, .errResourceNotFound, [.evResource]⟩) ∧
    (∀ r0 rs mv, (get_resource_data st c rt rid).1 = r0 :: rs →
      (dictGet (r0 :: rs) "module_version").getD (.leaf .none) = mv →
      pyTruthy mv = false →
      generate_terraform st gl u c rt rid
        = ⟨400, .errModuleVersion, [.evResource]⟩) ∧
    (∀ r0 rs mv, (get_resource_data st c rt rid).1 = r0 :: rs →
      (dictGet (r0 :: rs) "module_version").getD (.leaf .none) = mv →
      pyTruthy mv = true →
      templateFalsy (get_jinja_template st c rt mv) = true →
      generate_terraform st gl u c rt rid
        = ⟨404, .errTemplateNotFound, [.evResource, .evTemplate]⟩) ∧
    (∀ r0 rs mv t e, (get_resource_data st c rt rid).1 = r0 :: rs →
      (dictGet (r0 :: rs) "module_version").getD (.leaf .none) = mv →
      pyTruthy mv = true →
      get_jinja_template st c rt mv = some t → srcTruthy t = true →
      render_terraform_code t (r0 :: rs) = .error e →
      generate_terraform st gl u c rt rid
        = ⟨500, .errServer e, [.evResource, .evTemplate, .evRender]⟩) ∧
    (∀ r0 rs mv t code, (get_resource_data st c rt rid).1 = r0 :: rs →
      (dictGet (r0 :: rs) "module_version").getD (.leaf .none) = mv →
      pyTruthy mv = true →
      get_jinja_template st c rt mv = some t → srcTruthy t = true →
      render_terraform_code t (r0 :: rs) = .ok code →
      (validate_terraform_files code).is_valid = false →
      generate_terraform st gl u c rt rid
        = ⟨400, .errValidation (validate_terraform_files code).errors code,
           [.evResource, .evTemplate, .evRender, .evValidate]⟩) ∧
    (∀ r0 rs mv t code, (get_resource_data st c rt rid).1 = r0 :: rs →
      (dictGet (r0 :: rs) "module_version").getD (.leaf .none) = mv →
      pyTruthy mv = true →
      get_jinja_template st c rt mv = some t → srcTruthy t = true →
      render_terraform_code t (r0 :: rs) = .ok code →
      (validate_terraform_files code).is_valid = true →
      tokenFalsy (get_user_gitlab_token st u) = true →
      generate_terraform st gl u c rt rid
        = ⟨404, .errTokenNotFound,
           [.evResource, .evTemplate, .evRender, .evValidate, .evToken]⟩) ∧
    (∀ r0 rs mv t code tk, (get_resource_data st c rt rid).1 = r0 :: rs →
      (dictGet (r0 :: rs) "module_version").getD (.leaf .none) = mv →
      pyTruthy mv = true →
      get_jinja_template st c rt mv = some t → srcTruthy t = true →
      render_terraform_code t (r0 :: rs) = .ok code →
      (validate_terraform_files code).is_valid = true →
      get_user_gitlab_token st u = some tk → tk ≠ "" →
      projectFalsy (get_gitlab_project_id st c rt rid).1 = true →
      generate_terraform st gl u c rt rid
        = ⟨404, .errProjectNotFound,
           [.evResource, .evTemplate, .evRender, .evValidate, .evToken, .evProject]⟩) ∧
    (∀ r0 rs mv t code tk pjid e, (get_resource_data st c rt rid).1 = r0 :: rs →
      (dictGet (r0 :: rs) "module_version").getD (.leaf .none) = mv →
      pyTruthy mv = true →
      get_jinja_template st c rt mv = some t → srcTruthy t = true →
      render_terraform_code t (r0 :: rs) = .ok code →
      (validate_terraform_files code).is_valid = true →
      get_user_gitlab_token st u = some tk → tk ≠ "" →
      (get_gitlab_project_id st c rt rid).1 = some pjid → pjid ≠ 0 →
      (create_merge_request gl tk pjid
          [(mkFilePath c rt (mkResourceName (r0 :: rs) rid), code)]
          (mkSourceBranch c rt (mkResourceName (r0 :: rs) rid)) "main"
          (mkTitle c rt (mkResourceName (r0 :: rs) rid))
          (mkDescription c rt mv rid)).1 = .error e →
      generate_terraform st gl u c rt rid
        = ⟨500, .errServer (glErrMsg e),
           [.evResource, .evTemplate, .evRender, .evValidate, .evToken, .evProject,
            .evPublish]⟩) ∧
    (∀ r0 rs mv t code tk pjid mr, (get_resource_data st c rt rid).1 = r0 :: rs →
      (dictGet (r0 :: rs) "module_version").getD (.leaf .none) = mv →
      pyTruthy mv = true →
      get_jinja_template st c rt mv = some t → srcTruthy t = true →
      render_terraform_code t (r0 :: rs) = .ok code →
      (validate_terraform_files code).is_valid = true →
      get_user_gitlab_token st u = some tk → tk ≠ "" →
      (get_gitlab_project_id st c rt rid).1 = some pjid → pjid ≠ 0 →
      (create_merge_request gl tk pjid
          [(mkFilePath c rt (mkResourceName (r0 :: rs) rid), code)]
          (mkSourceBranch c rt (mkResourceName (r0 :: rs) rid)) "main"
          (mkTitle c rt (mkResourceName (r0 :: rs) rid))
          (mkDescription c rt mv rid)).1 = .ok mr →
      generate_terraform st gl u c rt rid
        = ⟨200, .okMR mr,
           [.evResource, .evTemplate, .evRender, .evValidate, .evToken, .evProject,
            .evPublish]⟩) := by
  refine ⟨?_, ?_, ?_, ?_, ?_, ?_, ?_, ?_, ?_⟩
  · intro h1
    simp [generate_terraform, h1]
  · intro r0 rs mv h1 h2 h3
    simp [generate_terraform, h1, h2, h3]
  · intro r0 rs mv h1 h2 h3 h4
    cases htp : get_jinja_template st c rt mv with
    | none => simp [generate_terraform, h1, h2, h3, htp]
    | some t =>
      have hst : srcTruthy t = false := by
        simpa [templateFalsy, htp] using h4
      simp [generate_terraform, h1, h2, h3, htp, hst]
  · intro r0 rs mv t e h1 h2 h3 h4 h5 h6
    simp [generate_terraform, h1, h2, h3, h4, h5, h6]
  · intro r0 rs mv t code h1 h2 h3 h4 h5 h6 h7
    simp [generate_terraform, h1, h2, h3, h4, h5, h6, h7]
  · intro r0 rs mv t code h1 h2 h3 h4 h5 h6 h7 h8
    cases htk : get_user_gitlab_token st u with
    | none => simp [generate_terraform, h1, h2, h3, h4, h5, h6, h7, htk]
    | some tk =>
      have htk0 : tk = "" := by
        simpa [tokenFalsy, htk] using h8
      simp [generate_terraform, h1, h2, h3, h4, h5, h6, h7, htk, htk0]
  · intro r0 rs mv t code tk h1 h2 h3 h4 h5 h6 h7 h8 h9 h10
    cases hpj : (get_gitlab_project_id st c rt rid).1 with
    | none => simp [generate_terraform, h1, h2, h3, h4, h5, h6, h7, h8, h9, hpj]
    | some pj =>
      have hpj0 : pj = 0 := by
        simpa [projectFalsy, hpj] using h10
      simp [generate_terraform, h1, h2, h3, h4, h5, h6, h7, h8, h9, hpj, hpj0]
  · intro r0 rs mv t code tk pjid e h1 h2 h3 h4 h5 h6 h7 h8 h9 h10 h11 h12
    simp [generate_terraform, h1, h2, h3, h4, h5, h6, h7, h8, h9, h10, h11, h12]
  · intro r0 rs mv t code tk pjid mr h1 h2 h3 h4 h5 h6 h7 h8 h9 h10 h11 h12
    simp [generate_terraform, h1, h2, h3, h4, h5, h6, h7, h8, h9, h10, h11, h12]

theorem generate_terraform_gate_cascade_witness :
    generate_terraform stEmpty glHappy "u" "aws" "rds" 1
      = ⟨404, .errResourceNotFound, [.evResource]⟩ ∧
    generate_terraform stHappy glHappy "u" "aws" "rds" 1
      = ⟨200, .okMR { merge_request_id := 7,
                      merge_request_url := "https://gitlab.example/mr/7",
                      source_branch := "feature/aws-rds-db1", target_branch := "main" },
         [.evResource, .evTemplate, .evRender, .evValidate, .evToken, .evProject,
          .evPublish]⟩ := by
  constructor
  · exact (generate_terraform_gate_cascade stEmpty glHappy "u" "aws" "rds" 1).1 (by decide)
  · exact (generate_terraform_gate_cascade stHappy glHappy "u" "aws" "rds"
      1).2.2.2.2.2.2.2.2
      ("id", .leaf (.int 1))
      [("name", .leaf (.str "db1")), ("module_version", .leaf (.str "2.3.0")),
       ("sg_rules", .rows [])]
      (.leaf (.str "2.3.0")) tmplHappy "resource \"db\" \x7b name = db1 \x7d" "tok" 42
      { merge_request_id := 7, merge_request_url := "https://gitlab.example/mr/7",
        source_branch := "feature/aws-rds-db1", target_branch := "main" }
      (by decide) (by decide) (by decide) (by decide) (by decide) (by decide) (by decide)
      (by decide) (by decide) (by decide) (by decide) (by decide)

/-- C1 counterexample: on a fully successful generation run the handler
records nothing in the Status Ledger — no `STARTED` record before the
lookups and no terminal record before returning — although the claim
requires a `STARTED` write plus exactly one terminal write.  The handler
never invokes `save_generation_status` at all. -/
theorem generate_terraform_writes_no_ledger_record :
    (generate_terraform stHappy glHappy "u" "aws" "rds" 1).events
      = [.evResource, .evTemplate, .evRender, .evValidate, .evToken, .evProject,
         .evPublish] ∧
    ((generate_terraform stHappy glHappy "u" "aws" "rds" 1).events.any isLedgerEv) = false ∧
    ((generate_terraform stEmpty glHappy "u" "aws" "rds" 1).events.any isLedgerEv) = false := by
  refine ⟨by decide, by decide, by decide⟩

/-- C1 amended: the orchestrator performs no Status Ledger write on any
path — success and every failure branch alike.  `save_generation_status`
exists in the service layer but is never called by the handler, so no
`STARTED` or terminal record is ever written. -/
theorem generate_terraform_no_ledger_writes (st : Store) (gl : GitLab)
    (u c rt : String) (rid : Int) :
    ((generate_terraform st gl u c rt rid).events.any isLedgerEv) = false := by
  simp only [generate_terraform]
  repeat' (first | rfl | split)

end SspApi
